import Mathlib

/-!
Verification of the Thyroid-Cancer-Detection frontend (React client).

The development shallowly embeds the client-side logic of the repository:
the pure helper functions of `frontend/src/utils/helpers.js`, the session
state held by `PredictionContext` (`PredictionProvider`), the analysis
workflow of the `useAnalysis` hook (`services/api.js` bundle), and the
upload handler of `ImageUpload.jsx`.  JavaScript numbers used as byte
counts or class indices are embedded as `Nat`; confidence scores are
embedded as `ℚ`; nullable values as `Option`; thrown/caught failures as an
explicit outcome type.  Each synchronous run-to-completion segment of the
single-threaded event loop is one transition, so the state updates issued
inside one segment are applied together (React batches them into one
re-render), matching the atomicity granularity described by the spec.
-/

set_option maxRecDepth 4000

/-- A browser `File` as the client code observes it: the declared MIME type
(`file.type`) and the byte size (`file.size`). -/
structure JsFile where
  type : String
  size : Nat
  deriving DecidableEq

/-- Result object returned by `validateFile` in `utils/helpers.js`:
a `valid` flag and an optional `error` message. -/
structure ValidationResult where
  valid : Bool
  error : Option String
  deriving DecidableEq

/-- `ALLOWED_TYPES` from `utils/helpers.js`. -/
def ALLOWED_TYPES : List String := ["image/png", "image/jpeg", "image/jpg"]

/-- `MAX_FILE_SIZE` from `utils/helpers.js` (10 MiB). -/
def MAX_FILE_SIZE : Nat := 10 * 1024 * 1024

/-- `validateFile(file)` from `utils/helpers.js`.  A missing argument
(JavaScript `undefined`/`null`, falsy) is embedded as `none`; a `File`
object is always truthy, so a present file is `some`.  The three checks are
performed in the source's order: missing file, MIME type outside
`ALLOWED_TYPES`, size strictly above `MAX_FILE_SIZE`. -/
def validateFile : Option JsFile → ValidationResult
  | none => { valid := false, error := some "No file provided" }
  | some file =>
    if !(ALLOWED_TYPES.contains file.type) then
      { valid := false, error := some "Invalid file type. Please upload PNG, JPG, or JPEG." }
    else if MAX_FILE_SIZE < file.size then
      { valid := false, error := some "File too large. Maximum size is 10MB." }
    else
      { valid := true, error := none }

/-- The `sizes` array of `formatFileSize`. -/
def sizesList : List String := ["Bytes", "KB", "MB", "GB"]

/-- JavaScript `Math.round` on a non-negative rational:
round half away from zero, i.e. `⌊q + 1/2⌋`. -/
def jsRound (q : ℚ) : ℤ := ⌊q + 1/2⌋

/-- Rendering of the JavaScript number `n / 100` (with `n : Nat` the value
already rounded to hundredths by `Math.round (x * 100)`), as JavaScript
number-to-string conversion prints it: an exact decimal with trailing
zeros, and a trailing decimal point, omitted. -/
def hundredthsToString (n : Nat) : String :=
  if n % 100 = 0 then toString (n / 100)
  else if n % 10 = 0 then toString (n / 100) ++ "." ++ toString (n / 10 % 10)
  else toString (n / 100) ++ "." ++ toString (n / 10 % 10) ++ toString (n % 10)

/-- `formatFileSize(bytes)` from `utils/helpers.js`.  The source computes the
unit index as `Math.floor(Math.log(bytes) / Math.log(1024))`; for a positive
integer byte count that double-precision expression computes the floor of the
base-1024 logarithm, embedded here as `Nat.log 1024 bytes`.  The mantissa
`Math.round((bytes / 1024^i) * 100) / 100` is computed exactly over `ℚ`
(`jsRound` of the scaled value is non-negative here, so `Int.toNat` is the
identity on its value), and `sizes[i]` out of range renders as JavaScript
`undefined`. -/
def formatFileSize (bytes : Nat) : String :=
  if bytes = 0 then "0 Bytes"
  else
    hundredthsToString (jsRound ((bytes : ℚ) / (1024 : ℚ) ^ (Nat.log 1024 bytes) * 100)).toNat
      ++ " " ++ sizesList.getD (Nat.log 1024 bytes) "undefined"

/-- The Tailwind class record returned by `getRiskColor`. -/
structure RiskTheme where
  bg : String
  border : String
  text : String
  icon : String
  badge : String
  deriving DecidableEq

/-- The red (high-risk) record literal returned by `getRiskColor`. -/
def redTheme : RiskTheme :=
  { bg := "bg-red-50 dark:bg-red-900/20"
    border := "border-red-500"
    text := "text-red-700 dark:text-red-400"
    icon := "text-red-600"
    badge := "bg-red-100 dark:bg-red-900 text-red-800 dark:text-red-200" }

/-- The orange (moderate) record literal returned by `getRiskColor`. -/
def orangeTheme : RiskTheme :=
  { bg := "bg-orange-50 dark:bg-orange-900/20"
    border := "border-orange-500"
    text := "text-orange-700 dark:text-orange-400"
    icon := "text-orange-600"
    badge := "bg-orange-100 dark:bg-orange-900 text-orange-800 dark:text-orange-200" }

/-- The green (low-risk) record literal returned by `getRiskColor`. -/
def greenTheme : RiskTheme :=
  { bg := "bg-green-50 dark:bg-green-900/20"
    border := "border-green-500"
    text := "text-green-700 dark:text-green-400"
    icon := "text-green-600"
    badge := "bg-green-100 dark:bg-green-900 text-green-800 dark:text-green-200" }

/-- The blue (borderline) record literal returned by `getRiskColor`. -/
def blueTheme : RiskTheme :=
  { bg := "bg-blue-50 dark:bg-blue-900/20"
    border := "border-blue-500"
    text := "text-blue-700 dark:text-blue-400"
    icon := "text-blue-600"
    badge := "bg-blue-100 dark:bg-blue-900 text-blue-800 dark:text-blue-200" }

/-- `getRiskColor(predictionClass, confidenceScore)` from `utils/helpers.js`.
`predictionClass === 1` selects the malignant branch (any other number falls
to the benign branch); the confidence score, a number in `[0,1]`, is embedded
as `ℚ`, the literals `0.75` and `0.25` as `mkRat 75 100` and `mkRat 25 100`.
The four inline record literals of the source are the four named themes
above. -/
def getRiskColor (predictionClass : Nat) (confidenceScore : ℚ) : RiskTheme :=
  if predictionClass = 1 then
    if confidenceScore ≥ mkRat 75 100 then redTheme else orangeTheme
  else
    if confidenceScore ≤ mkRat 25 100 then greenTheme else blueTheme

/-- The `gradcam` block of a successful `/api/v1/analyze` response as the
frontend consumes it (`GradCAMPanel`): three base64-encoded images and the
model layer used. -/
structure GradcamImages where
  original : String
  heatmap : String
  overlay : String
  layer_used : String
  deriving DecidableEq

/-- A successful `/api/v1/analyze` response body (`result` in the
`useAnalysis` hook): classification fields plus the optional `gradcam`
block tested by `if (result.gradcam)`. -/
structure AnalysisResult where
  label : String
  confidence_score : ℚ
  recommendation : String
  gradcam : Option GradcamImages
  deriving DecidableEq

/-- The shared session state of `PredictionProvider`
(`context/PredictionContext.jsx`): the five `useState` cells. -/
structure SessionState where
  uploadedImage : Option JsFile
  predictionResult : Option AnalysisResult
  gradcamImages : Option GradcamImages
  isLoading : Bool
  error : Option String
  deriving DecidableEq

/-- The initial session state of `PredictionProvider`:
`useState(null)` for the four nullable cells and `useState(false)` for
`isLoading`. -/
def emptySession : SessionState :=
  { uploadedImage := none, predictionResult := none, gradcamImages := none
    isLoading := false, error := none }

/-- `resetAnalysis` from `PredictionProvider`: sets all five cells back to
their initial values.  The five `set*` calls run in one synchronous
segment, hence one transition. -/
def resetAnalysis (_st : SessionState) : SessionState :=
  { uploadedImage := none, predictionResult := none, gradcamImages := none
    isLoading := false, error := none }

/-- Outcome of the awaited `analyzeImage` call inside `performAnalysis`:
either the parsed response body, or a thrown error carrying the optional
server payload `err.response?.data?.detail` and the optional transport
message `err.message`. -/
inductive ApiOutcome where
  | success (result : AnalysisResult)
  | failure (detail : Option String) (message : Option String)
  deriving DecidableEq

/-- JavaScript `a || b` on an optional string `a`: `b` when `a` is absent
(`undefined`, falsy) or the empty string (falsy), else the string itself. -/
def jsOr (a : Option String) (b : String) : String :=
  match a with
  | some s => if s = "" then b else s
  | none => b

/-- The error message computed in the `catch` branch of `performAnalysis`:
`err.response?.data?.detail || err.message || 'Analysis failed'`. -/
def deriveErrorMessage (detail message : Option String) : String :=
  jsOr detail (jsOr message "Analysis failed")

/-- A user-facing `react-hot-toast` notification issued by the client code. -/
inductive Toast where
  | error (msg : String)
  | success (msg : String)
  | loading (msg : String)
  | dismiss
  deriving DecidableEq

/-- The state updates applied when the analysis response is delivered
(the code after `await analyzeImage` in `performAnalysis`, together with
the `finally` block): on success `setPredictionResult(result)`, then
`setGradcamImages(result.gradcam)` only when `result.gradcam` is truthy,
then `setIsLoading(false)`; on failure `setError(message)` and
`setIsLoading(false)`.  All updates of one delivery are applied in one
synchronous segment, hence one transition. -/
def applyResponse (st : SessionState) (o : ApiOutcome) : SessionState :=
  match o with
  | .success result =>
    let st1 := { st with predictionResult := some result }
    let st2 := match result.gradcam with
      | some g => { st1 with gradcamImages := some g }
      | none => st1
    { st2 with isLoading := false }
  | .failure detail message =>
    { st with error := some (deriveErrorMessage detail message), isLoading := false }

/-- Observable result of one complete run of `performAnalysis`: the final
session state, the toasts issued, and whether a network request was sent. -/
structure PerformResult where
  state : SessionState
  toasts : List Toast
  networkRequested : Bool
  deriving DecidableEq

/-- A complete run of `performAnalysis` from the `useAnalysis` hook, with
the awaited remote call resolving to `o`.  With no uploaded image the guard
fires: one error toast, no state change, no request.  Otherwise
`setIsLoading(true)` and `setError(null)` are applied, one request is
issued, and the response updates of `applyResponse` follow. -/
def performAnalysis (st : SessionState) (o : ApiOutcome) : PerformResult :=
  match st.uploadedImage with
  | none =>
    { state := st, toasts := [Toast.error "Please upload an image first"]
      networkRequested := false }
  | some _ =>
    { state := applyResponse { st with isLoading := true, error := none } o
      toasts := match o with
        | .success _ =>
          [Toast.loading "Analyzing image...", Toast.dismiss,
           Toast.success "Analysis completed successfully!"]
        | .failure detail message =>
          [Toast.loading "Analyzing image...",
           Toast.error (deriveErrorMessage detail message)]
      networkRequested := true }

/-- The `onDrop` handler of `ImageUpload.jsx` on the accepted-files list:
an empty list is ignored; otherwise the first file is validated, a failing
file only raises an error toast, and a passing file triggers
`resetAnalysis()` followed by `setUploadedImage(file)` (one synchronous
segment, one transition) and a success toast. -/
def onDrop (st : SessionState) (acceptedFiles : List JsFile) : SessionState × List Toast :=
  match acceptedFiles with
  | [] => (st, [])
  | file :: _ =>
    let validation := validateFile (some file)
    if validation.valid then
      ({ resetAnalysis st with uploadedImage := some file },
       [Toast.success "Image uploaded successfully!"])
    else
      (st, [Toast.error (validation.error.getD "undefined")])

/-- The client state for the interleaved workflow: the shared session plus
the multiset of in-flight analysis requests, each remembered by the file it
was issued for.  The source keeps no such bookkeeping - an in-flight
request is simply a pending promise - so `pending` only records which
response deliveries are possible. -/
structure ClientState where
  session : SessionState
  pending : List JsFile
  deriving DecidableEq

/-- One step of the client, as observable from the session state:
uploading a file that passes validation (`onDrop`), invoking analysis with
no image (refused, no state change), invoking analysis with an image
present (the synchronous prefix of `performAnalysis` up to the `await`:
`setIsLoading(true)`, `setError(null)`, request issued), resetting, and
delivery of any in-flight response (`applyResponse`).  The source applies a
delivered response unconditionally - in particular after a reset issued
while the request was in flight. -/
inductive Step : ClientState → ClientState → Prop where
  | upload (cs : ClientState) (file : JsFile)
      (hv : (validateFile (some file)).valid = true) :
      Step cs ⟨(onDrop cs.session [file]).1, cs.pending⟩
  | analyzeRefused (cs : ClientState) (h : cs.session.uploadedImage = none) :
      Step cs cs
  | analyzeStart (cs : ClientState) (f : JsFile)
      (h : cs.session.uploadedImage = some f) :
      Step cs ⟨{ cs.session with isLoading := true, error := none }, f :: cs.pending⟩
  | reset (cs : ClientState) :
      Step cs ⟨resetAnalysis cs.session, cs.pending⟩
  | deliver (cs : ClientState) (f : JsFile) (o : ApiOutcome) (h : f ∈ cs.pending) :
      Step cs ⟨applyResponse cs.session o, cs.pending.erase f⟩

/-- Reachability from the initial client state (empty session, nothing in
flight) under `Step`. -/
inductive Reachable : ClientState → Prop where
  | init : Reachable ⟨emptySession, []⟩
  | step {a b : ClientState} : Reachable a → Step a b → Reachable b

/-- The same step relation with stale deliveries excluded: a response may
only be delivered while the image it was requested for is still the
uploaded image - in particular no delivery after an intervening reset.
This is the restriction under which the presence invariant holds. -/
inductive StepGuarded : ClientState → ClientState → Prop where
  | upload (cs : ClientState) (file : JsFile)
      (hv : (validateFile (some file)).valid = true) :
      StepGuarded cs ⟨(onDrop cs.session [file]).1, cs.pending⟩
  | analyzeRefused (cs : ClientState) (h : cs.session.uploadedImage = none) :
      StepGuarded cs cs
  | analyzeStart (cs : ClientState) (f : JsFile)
      (h : cs.session.uploadedImage = some f) :
      StepGuarded cs ⟨{ cs.session with isLoading := true, error := none }, f :: cs.pending⟩
  | reset (cs : ClientState) :
      StepGuarded cs ⟨resetAnalysis cs.session, cs.pending⟩
  | deliver (cs : ClientState) (f : JsFile) (o : ApiOutcome) (h : f ∈ cs.pending)
      (himg : cs.session.uploadedImage = some f) :
      StepGuarded cs ⟨applyResponse cs.session o, cs.pending.erase f⟩

/-- Reachability from the initial client state under `StepGuarded`. -/
inductive ReachableGuarded : ClientState → Prop where
  | init : ReachableGuarded ⟨emptySession, []⟩
  | step {a b : ClientState} : ReachableGuarded a → StepGuarded a b → ReachableGuarded b

/-- A concrete valid PNG upload used in concrete instantiations. -/
def fileA : JsFile := { type := "image/png", size := 2048 }

/-- A concrete analysis result without a gradcam block. -/
def resA : AnalysisResult :=
  { label := "Malignant", confidence_score := mkRat 9 10
    recommendation := "Consult a specialist", gradcam := none }

/-- A concrete gradcam block. -/
def gcA : GradcamImages :=
  { original := "b64-original", heatmap := "b64-heatmap"
    overlay := "b64-overlay", layer_used := "conv5_block3_out" }

/-- A concrete analysis result carrying a gradcam block. -/
def resB : AnalysisResult :=
  { label := "Benign", confidence_score := mkRat 1 10
    recommendation := "Routine follow-up", gradcam := some gcA }

/-- Decimal digit character for `n % 10` (code point 48 + digit value). -/
def digitChar (n : Nat) : Char := Char.ofNat (48 + n % 10)

/-- Two-digit zero-padded decimal rendering, as `Date#toISOString` pads
month, day, hour, minute and second; exact for values up to 99, which
covers every field a real date produces. -/
def pad2 (n : Nat) : List Char := [digitChar (n / 10), digitChar n]

/-- Three-digit zero-padded rendering of the milliseconds field. -/
def pad3 (n : Nat) : List Char := [digitChar (n / 100), digitChar (n / 10), digitChar n]

/-- Four-digit zero-padded rendering of the year; exact for 0 to 9999, the
range in which `toISOString` uses the plain `YYYY` form. -/
def pad4 (n : Nat) : List Char :=
  [digitChar (n / 1000), digitChar (n / 100), digitChar (n / 10), digitChar n]

/-- The UTC components a JavaScript `Date` exposes through `toISOString`. -/
structure JsDate where
  year : Nat
  month : Nat
  day : Nat
  hour : Nat
  minute : Nat
  second : Nat
  millisecond : Nat
  deriving DecidableEq

/-- `Date#toISOString()`, modelled from its ECMA-262 specification (the
only aspect of `new Date()` that `generateTimestampedFilename` observes):
`YYYY-MM-DDTHH:MM:SS.sssZ` over the date's UTC components. -/
def toISOString (d : JsDate) : String :=
  ⟨pad4 d.year ++ '-' :: pad2 d.month ++ '-' :: pad2 d.day ++ 'T' :: pad2 d.hour
    ++ ':' :: pad2 d.minute ++ ':' :: pad2 d.second ++ '.' :: pad3 d.millisecond ++ ['Z']⟩

/-- Character-level action of `.replace(/[:.]/g, '-')`. -/
def replaceColonPeriodChar (c : Char) : Char :=
  if c == ':' || c == '.' then '-' else c

/-- `.replace(/[:.]/g, '-')`: every colon and period becomes a dash. -/
def replaceColonPeriod (s : String) : String :=
  ⟨s.data.map replaceColonPeriodChar⟩

/-- `.replace('T', '_')`: a string-pattern `replace` rewrites only the
first occurrence (the ISO string contains exactly one `T`). -/
def replaceFirstT : List Char → List Char
  | [] => []
  | c :: cs => if c == 'T' then '_' :: cs else c :: replaceFirstT cs

/-- `String#slice(a, b)` for `0 ≤ a ≤ b`: the characters at indices
`[a, b)`. -/
def jsSlice (s : String) (a b : Nat) : String := ⟨(s.data.take b).drop a⟩

/-- `generateTimestampedFilename(prefix, extension)` from
`utils/helpers.js`, with the wall-clock date `now` (`new Date()`) passed
explicitly: the prefix, an underscore, the ISO timestamp with colons and
periods replaced by dashes, `T` replaced by `_` and truncated to 19
characters (seconds precision), a period, and the extension. -/
def generateTimestampedFilename (pre ext : String) (now : JsDate) : String :=
  pre ++ "_"
    ++ jsSlice ⟨replaceFirstT (replaceColonPeriod (toISOString now)).data⟩ 0 19
    ++ "." ++ ext

/-- A character of the regex class `[a-zA-Z_]`. -/
def isClassChar (c : Char) : Bool := c.isAlpha || c == '_'

/-- Splits a character list into its maximal leading run of `[a-zA-Z_]`
characters and the remainder. -/
def splitClass : List Char → List Char × List Char
  | [] => ([], [])
  | c :: cs =>
    if isClassChar c then
      let p := splitClass cs
      (c :: p.1, p.2)
    else ([], c :: cs)

/-- Exact match of `\d{4}-\d{2}-\d{2}_\d{2}-\d{2}-\d{2}\.(pdf|json)`
against a whole character list. -/
def checkTail : List Char → Bool
  | c1 :: c2 :: c3 :: c4 :: '-' :: c5 :: c6 :: '-' :: c7 :: c8 :: '_' :: c9 :: c10 :: '-'
      :: c11 :: c12 :: '-' :: c13 :: c14 :: '.' :: rest =>
    c1.isDigit && c2.isDigit && c3.isDigit && c4.isDigit && c5.isDigit && c6.isDigit &&
    c7.isDigit && c8.isDigit && c9.isDigit && c10.isDigit && c11.isDigit && c12.isDigit &&
    c13.isDigit && c14.isDigit &&
    (rest == ['p', 'd', 'f'] || rest == ['j', 's', 'o', 'n'])
  | _ => false

/-- Whole-string match of the anchored regular expression
`^[a-zA-Z_]+_\d{4}-\d{2}-\d{2}_\d{2}-\d{2}-\d{2}\.(pdf|json)$`,
determinised: the timestamp begins with a digit, which is not a class
character, so any match forces the `[a-zA-Z_]+_` part to be exactly the
maximal leading class-character run - which must then be of length at
least two and end in the underscore - followed by the fixed-shape tail. -/
def matchesExportPattern (s : String) : Bool :=
  decide (2 ≤ (splitClass s.data).1.length)
    && ((splitClass s.data).1.getLast? == some '_')
    && checkTail (splitClass s.data).2

/-! Theorems. -/

example : validateFile none = ⟨false, some "No file provided"⟩ := by decide
example : validateFile (some ⟨"image/gif", 5⟩) =
    ⟨false, some "Invalid file type. Please upload PNG, JPG, or JPEG."⟩ := by decide
example : validateFile (some ⟨"image/png", 10 * 1024 * 1024 + 1⟩) =
    ⟨false, some "File too large. Maximum size is 10MB."⟩ := by decide
example : validateFile (some ⟨"image/jpeg", 10 * 1024 * 1024⟩) = ⟨true, none⟩ := by decide
example : formatFileSize 0 = "0 Bytes" := by decide
example : getRiskColor 1 (mkRat 75 100) = redTheme := by decide
example : getRiskColor 1 (mkRat 74 100) = orangeTheme := by decide
example : getRiskColor 0 (mkRat 25 100) = greenTheme := by decide
example : getRiskColor 0 (mkRat 26 100) = blueTheme := by decide

/-- C5: `validateFile` is a pure total function; a missing file is rejected
with the no-file message; a present file of a MIME type outside
{image/png, image/jpeg, image/jpg} is rejected with the type-error message
regardless of size; an accepted-type file strictly over `10 * 1024 * 1024`
bytes is rejected with the size-error message; an accepted-type file of at
most `10 * 1024 * 1024` bytes is accepted.  The second conjunct carrying no
size hypothesis and the third requiring an accepted type witness that the
checks apply in the source's order: missing file, then type, then size. -/
theorem c5_validateFile_contract :
    (validateFile none = { valid := false, error := some "No file provided" }) ∧
    (∀ f : JsFile, f.type ∉ (["image/png", "image/jpeg", "image/jpg"] : List String) →
      validateFile (some f) =
        { valid := false, error := some "Invalid file type. Please upload PNG, JPG, or JPEG." }) ∧
    (∀ f : JsFile, f.type ∈ (["image/png", "image/jpeg", "image/jpg"] : List String) →
      10 * 1024 * 1024 < f.size →
      validateFile (some f) =
        { valid := false, error := some "File too large. Maximum size is 10MB." }) ∧
    (∀ f : JsFile, f.type ∈ (["image/png", "image/jpeg", "image/jpg"] : List String) →
      f.size ≤ 10 * 1024 * 1024 →
      validateFile (some f) = { valid := true, error := none }) := by
  refine ⟨rfl, ?_, ?_, ?_⟩
  · intro f hf
    have hc : f.type ∉ ALLOWED_TYPES := by simpa [ALLOWED_TYPES] using hf
    simp [validateFile, hc]
  · intro f hf hsize
    have hc : f.type ∈ ALLOWED_TYPES := by simpa [ALLOWED_TYPES] using hf
    have hs : MAX_FILE_SIZE < f.size := hsize
    simp [validateFile, hc, hs]
  · intro f hf hsize
    have hc : f.type ∈ ALLOWED_TYPES := by simpa [ALLOWED_TYPES] using hf
    have hs : ¬ (MAX_FILE_SIZE < f.size) := by
      simpa [MAX_FILE_SIZE] using hsize
    simp [validateFile, hc, hs]

/-- Witness for C5 at concrete files: a GIF is rejected for its type, an
oversized PNG for its size, and a small JPEG is accepted. -/
theorem c5_witness :
    validateFile (some ⟨"image/gif", 5⟩) =
      { valid := false, error := some "Invalid file type. Please upload PNG, JPG, or JPEG." } ∧
    validateFile (some ⟨"image/png", 10 * 1024 * 1024 + 1⟩) =
      { valid := false, error := some "File too large. Maximum size is 10MB." } ∧
    validateFile (some ⟨"image/jpeg", 12345⟩) = { valid := true, error := none } :=
  ⟨c5_validateFile_contract.2.1 ⟨"image/gif", 5⟩ (by decide),
   c5_validateFile_contract.2.2.1 ⟨"image/png", 10 * 1024 * 1024 + 1⟩ (by decide) (by decide),
   c5_validateFile_contract.2.2.2 ⟨"image/jpeg", 12345⟩ (by decide) (by decide)⟩

/-- C6: `getRiskColor` is total and returns one of the four fixed themes;
malignant (class 1) with score at least 0.75 maps to the red theme, malignant
below 0.75 to the orange theme, benign (class 0) with score at most 0.25 to
the green theme, benign above 0.25 to the blue theme; and in particular
(1, 0.75) is red, (1, 0.74) is orange, (0, 0.25) is green, (0, 0.26) is
blue. -/
theorem c6_getRiskColor_thresholds :
    (∀ (c : Nat) (s : ℚ), getRiskColor c s = redTheme ∨ getRiskColor c s = orangeTheme ∨
        getRiskColor c s = greenTheme ∨ getRiskColor c s = blueTheme) ∧
    (∀ s : ℚ, mkRat 75 100 ≤ s → getRiskColor 1 s = redTheme) ∧
    (∀ s : ℚ, s < mkRat 75 100 → getRiskColor 1 s = orangeTheme) ∧
    (∀ s : ℚ, s ≤ mkRat 25 100 → getRiskColor 0 s = greenTheme) ∧
    (∀ s : ℚ, mkRat 25 100 < s → getRiskColor 0 s = blueTheme) ∧
    getRiskColor 1 (mkRat 75 100) = redTheme ∧
    getRiskColor 1 (mkRat 74 100) = orangeTheme ∧
    getRiskColor 0 (mkRat 25 100) = greenTheme ∧
    getRiskColor 0 (mkRat 26 100) = blueTheme := by
  refine ⟨?_, ?_, ?_, ?_, ?_, by decide, by decide, by decide, by decide⟩
  · intro c s
    unfold getRiskColor
    split_ifs <;> simp
  · intro s h
    simp [getRiskColor, ge_iff_le, h]
  · intro s h
    simp [getRiskColor, ge_iff_le, not_le.mpr h]
  · intro s h
    simp [getRiskColor, h]
  · intro s h
    simp [getRiskColor, not_le.mpr h]

/-- Witness for C6 at concrete scores away from the boundaries. -/
theorem c6_witness :
    getRiskColor 1 (mkRat 9 10) = redTheme ∧ getRiskColor 1 (mkRat 1 2) = orangeTheme ∧
    getRiskColor 0 (mkRat 1 10) = greenTheme ∧ getRiskColor 0 (mkRat 1 2) = blueTheme :=
  ⟨c6_getRiskColor_thresholds.2.1 (mkRat 9 10) (by decide),
   c6_getRiskColor_thresholds.2.2.1 (mkRat 1 2) (by decide),
   c6_getRiskColor_thresholds.2.2.2.1 (mkRat 1 10) (by decide),
   c6_getRiskColor_thresholds.2.2.2.2.1 (mkRat 1 2) (by decide)⟩

/-- C9: `formatFileSize` returns exactly "0 Bytes" on 0, "1 KB" on 1024 and
"1.5 KB" on 1536, the unit index being the floor of the base-1024 logarithm
and the mantissa being rounded to two decimal places. -/
theorem c9_formatFileSize_values :
    formatFileSize 0 = "0 Bytes" ∧ formatFileSize 1024 = "1 KB" ∧
    formatFileSize 1536 = "1.5 KB" := by
  refine ⟨rfl, ?_, ?_⟩
  · have hlog : Nat.log 1024 1024 = 1 :=
      Nat.log_eq_of_pow_le_of_lt_pow (by norm_num) (by norm_num)
    have hround : jsRound (((1024 : Nat) : ℚ) / (1024 : ℚ) ^ (1 : Nat) * 100) = 100 := by
      unfold jsRound
      rw [Int.floor_eq_iff]
      norm_num
    unfold formatFileSize
    rw [if_neg (by norm_num), hlog, hround]
    decide
  · have hlog : Nat.log 1024 1536 = 1 :=
      Nat.log_eq_of_pow_le_of_lt_pow (by norm_num) (by norm_num)
    have hround : jsRound (((1536 : Nat) : ℚ) / (1024 : ℚ) ^ (1 : Nat) * 100) = 150 := by
      unfold jsRound
      rw [Int.floor_eq_iff]
      norm_num
    unfold formatFileSize
    rw [if_neg (by norm_num), hlog, hround]
    decide

/-- C7: `resetAnalysis` maps every session state - in particular one holding
an image, a result, a gradcam payload and an error - to the state with all
four nullable cells `none` and `isLoading` false, in one transition (the
five `set*` calls form one synchronous segment, so no intermediate state is
observable). -/
theorem c7_resetAnalysis_clears_all :
    ∀ st : SessionState, resetAnalysis st =
      { uploadedImage := none, predictionResult := none, gradcamImages := none
        isLoading := false, error := none } :=
  fun _ => rfl

/-- C4: with no uploaded image, `performAnalysis` leaves the whole session
state unchanged, issues exactly one user-facing notice, and performs no
network request, whatever the would-be outcome. -/
theorem c4_performAnalysis_no_image (st : SessionState) (o : ApiOutcome)
    (h : st.uploadedImage = none) :
    (performAnalysis st o).state = st ∧
    (performAnalysis st o).toasts = [Toast.error "Please upload an image first"] ∧
    (performAnalysis st o).toasts.length = 1 ∧
    (performAnalysis st o).networkRequested = false := by
  refine ⟨?_, ?_, ?_, ?_⟩ <;> simp [performAnalysis, h]

/-- Witness for C4 at the initial session state. -/
theorem c4_witness :
    (performAnalysis emptySession (.success resA)).state = emptySession ∧
    (performAnalysis emptySession (.success resA)).toasts =
      [Toast.error "Please upload an image first"] ∧
    (performAnalysis emptySession (.success resA)).toasts.length = 1 ∧
    (performAnalysis emptySession (.success resA)).networkRequested = false :=
  c4_performAnalysis_no_image emptySession (.success resA) rfl

/-- C3: with an image present, a successful call resolving to `r` leaves the
session not loading, with `predictionResult` exactly `some r`, a null error,
and - when `r` carries a gradcam block - that block installed; all of this
is one transition of the embedding (the updates after the `await` form one
synchronous segment), so no state with only part of the result is
observable. -/
theorem c3_performAnalysis_success (st : SessionState) (f : JsFile)
    (r : AnalysisResult) (h : st.uploadedImage = some f) :
    (performAnalysis st (.success r)).state.isLoading = false ∧
    (performAnalysis st (.success r)).state.predictionResult = some r ∧
    (performAnalysis st (.success r)).state.error = none ∧
    (∀ g : GradcamImages, r.gradcam = some g →
      (performAnalysis st (.success r)).state.gradcamImages = some g) := by
  refine ⟨?_, ?_, ?_, ?_⟩
  · cases hg : r.gradcam <;> simp [performAnalysis, applyResponse, h, hg]
  · cases hg : r.gradcam <;> simp [performAnalysis, applyResponse, h, hg]
  · cases hg : r.gradcam <;> simp [performAnalysis, applyResponse, h, hg]
  · intro g hg
    simp [performAnalysis, applyResponse, h, hg]

/-- Witness for C3: a freshly uploaded image analysed to a result that
carries a gradcam block. -/
theorem c3_witness :
    (performAnalysis ⟨some fileA, none, none, false, none⟩ (.success resB)).state.isLoading
        = false ∧
    (performAnalysis ⟨some fileA, none, none, false, none⟩ (.success resB)).state.predictionResult
        = some resB ∧
    (performAnalysis ⟨some fileA, none, none, false, none⟩ (.success resB)).state.error = none ∧
    (∀ g : GradcamImages, resB.gradcam = some g →
      (performAnalysis ⟨some fileA, none, none, false, none⟩
          (.success resB)).state.gradcamImages = some g) :=
  c3_performAnalysis_success ⟨some fileA, none, none, false, none⟩ fileA resB rfl

/-- C2 counterexample: from a session that already holds a result (reachable
by analysing once and invoking analysis again), a failed second call leaves
the old `predictionResult` in place - the claim requires it to be null - and
a present-but-empty server `detail` field is skipped in favour of the
transport message, where the claim's reading of "present" would select the
empty detail. -/
theorem c2_counterexample :
    (performAnalysis ⟨some fileA, some resA, none, false, none⟩
        (.failure (some "") (some "Network Error"))).state.predictionResult = some resA ∧
    some resA ≠ (none : Option AnalysisResult) ∧
    (performAnalysis ⟨some fileA, some resA, none, false, none⟩
        (.failure (some "") (some "Network Error"))).state.error = some "Network Error" := by
  refine ⟨by decide, by decide, by decide⟩

/-- `jsOr` never returns the empty string when its fallback is non-empty. -/
theorem jsOr_ne_empty (a : Option String) (b : String) (hb : b ≠ "") :
    jsOr a b ≠ "" := by
  cases a with
  | none => simpa [jsOr] using hb
  | some s =>
    by_cases hs : s = "" <;> simp [jsOr, hs, hb]

/-- C2 (amended): with an image present, a failed call leaves
`uploadedImage`, `predictionResult` and `gradcamImages` unchanged, clears
`isLoading`, and sets `error` to the non-empty message of the source's
truthy-or chain: the server detail when present and non-empty, else the
transport message when present and non-empty, else "Analysis failed". -/
theorem c2_performAnalysis_failure (st : SessionState) (f : JsFile)
    (detail message : Option String) (h : st.uploadedImage = some f) :
    (performAnalysis st (.failure detail message)).state.uploadedImage = st.uploadedImage ∧
    (performAnalysis st (.failure detail message)).state.isLoading = false ∧
    (performAnalysis st (.failure detail message)).state.predictionResult
        = st.predictionResult ∧
    (performAnalysis st (.failure detail message)).state.gradcamImages = st.gradcamImages ∧
    (performAnalysis st (.failure detail message)).state.error
        = some (deriveErrorMessage detail message) ∧
    deriveErrorMessage detail message ≠ "" ∧
    (∀ d, detail = some d → d ≠ "" → deriveErrorMessage detail message = d) ∧
    (∀ m, (detail = none ∨ detail = some "") → message = some m → m ≠ "" →
      deriveErrorMessage detail message = m) ∧
    ((detail = none ∨ detail = some "") → (message = none ∨ message = some "") →
      deriveErrorMessage detail message = "Analysis failed") := by
  refine ⟨?_, ?_, ?_, ?_, ?_, ?_, ?_, ?_, ?_⟩
  · simp [performAnalysis, applyResponse, h]
  · simp [performAnalysis, applyResponse, h]
  · simp [performAnalysis, applyResponse, h]
  · simp [performAnalysis, applyResponse, h]
  · simp [performAnalysis, applyResponse, h]
  · exact jsOr_ne_empty _ _ (jsOr_ne_empty _ _ (by decide))
  · intro d hd hne
    simp [deriveErrorMessage, jsOr, hd, hne]
  · intro m hd hm hne
    rcases hd with hd | hd <;> simp [deriveErrorMessage, jsOr, hd, hm, hne]
  · intro hd hm
    rcases hd with hd | hd <;> rcases hm with hm | hm <;>
      simp [deriveErrorMessage, jsOr, hd, hm]

/-- Witness for C2 (amended): failure with no server detail and a transport
message, from a session holding only an image. -/
theorem c2_witness :
    (performAnalysis ⟨some fileA, none, none, false, none⟩
        (.failure none (some "timeout of 60000ms exceeded"))).state.uploadedImage
      = (⟨some fileA, none, none, false, none⟩ : SessionState).uploadedImage ∧
    (performAnalysis ⟨some fileA, none, none, false, none⟩
        (.failure none (some "timeout of 60000ms exceeded"))).state.isLoading = false ∧
    (performAnalysis ⟨some fileA, none, none, false, none⟩
        (.failure none (some "timeout of 60000ms exceeded"))).state.predictionResult
      = (⟨some fileA, none, none, false, none⟩ : SessionState).predictionResult ∧
    (performAnalysis ⟨some fileA, none, none, false, none⟩
        (.failure none (some "timeout of 60000ms exceeded"))).state.gradcamImages
      = (⟨some fileA, none, none, false, none⟩ : SessionState).gradcamImages ∧
    (performAnalysis ⟨some fileA, none, none, false, none⟩
        (.failure none (some "timeout of 60000ms exceeded"))).state.error
      = some (deriveErrorMessage none (some "timeout of 60000ms exceeded")) ∧
    deriveErrorMessage none (some "timeout of 60000ms exceeded") ≠ "" ∧
    (∀ d, (none : Option String) = some d → d ≠ "" →
      deriveErrorMessage none (some "timeout of 60000ms exceeded") = d) ∧
    (∀ m, ((none : Option String) = none ∨ (none : Option String) = some "") →
      (some "timeout of 60000ms exceeded" : Option String) = some m → m ≠ "" →
      deriveErrorMessage none (some "timeout of 60000ms exceeded") = m) ∧
    (((none : Option String) = none ∨ (none : Option String) = some "") →
      ((some "timeout of 60000ms exceeded" : Option String) = none ∨
        (some "timeout of 60000ms exceeded" : Option String) = some "") →
      deriveErrorMessage none (some "timeout of 60000ms exceeded") = "Analysis failed") :=
  c2_performAnalysis_failure ⟨some fileA, none, none, false, none⟩ fileA
    none (some "timeout of 60000ms exceeded") rfl

/-- C10: the upload handler on a file that passes validation resets the
whole session and installs the new file in one transition, whatever the
previous session held; on a file that fails validation the session is left
unchanged. -/
theorem c10_onDrop_upload (st : SessionState) (file : JsFile) :
    ((validateFile (some file)).valid = true →
      onDrop st [file] =
        ({ uploadedImage := some file, predictionResult := none, gradcamImages := none
           isLoading := false, error := none },
         [Toast.success "Image uploaded successfully!"])) ∧
    ((validateFile (some file)).valid = false → (onDrop st [file]).1 = st) := by
  constructor <;> intro h <;> simp [onDrop, h, resetAnalysis]

/-- Witness for C10: a valid PNG dropped onto a fully populated session, and
a GIF dropped onto the initial session. -/
theorem c10_witness :
    onDrop ⟨some fileA, some resB, some gcA, true, some "old error"⟩ [fileA] =
      ({ uploadedImage := some fileA, predictionResult := none, gradcamImages := none
         isLoading := false, error := none },
       [Toast.success "Image uploaded successfully!"]) ∧
    (onDrop emptySession [⟨"image/gif", 5⟩]).1 = emptySession :=
  ⟨(c10_onDrop_upload ⟨some fileA, some resB, some gcA, true, some "old error"⟩ fileA).1
      (by decide),
   (c10_onDrop_upload emptySession ⟨"image/gif", 5⟩).2 (by decide)⟩

/-- Delivering a response never touches the uploaded image. -/
theorem applyResponse_uploadedImage (st : SessionState) (o : ApiOutcome) :
    (applyResponse st o).uploadedImage = st.uploadedImage := by
  cases o with
  | success r => cases hg : r.gradcam <;> simp [applyResponse, hg]
  | failure detail message => rfl

/-- C1 counterexample: the trace upload, analysis start, reset, stale
delivery of the in-flight success response reaches a state whose
`predictionResult` and `gradcamImages` are non-null while `uploadedImage`
is null - the source applies a response that arrives after a reset
unconditionally. -/
theorem c1_counterexample :
    Reachable ⟨⟨none, some resB, some gcA, false, none⟩, []⟩ ∧
    (⟨⟨none, some resB, some gcA, false, none⟩, []⟩ : ClientState).session.predictionResult
      ≠ none ∧
    (⟨⟨none, some resB, some gcA, false, none⟩, []⟩ : ClientState).session.gradcamImages
      ≠ none ∧
    (⟨⟨none, some resB, some gcA, false, none⟩, []⟩ : ClientState).session.uploadedImage
      = none := by
  refine ⟨?_, by decide, by decide, rfl⟩
  have h1 : Reachable ⟨⟨some fileA, none, none, false, none⟩, []⟩ := by
    have hs := Reachable.step Reachable.init
      (Step.upload ⟨emptySession, []⟩ fileA (by decide))
    have he : (onDrop emptySession [fileA]).1
        = (⟨some fileA, none, none, false, none⟩ : SessionState) := by decide
    rw [he] at hs
    exact hs
  have h2 : Reachable ⟨⟨some fileA, none, none, true, none⟩, [fileA]⟩ :=
    Reachable.step h1
      (Step.analyzeStart ⟨⟨some fileA, none, none, false, none⟩, []⟩ fileA rfl)
  have h3 : Reachable ⟨⟨none, none, none, false, none⟩, [fileA]⟩ :=
    Reachable.step h2 (Step.reset ⟨⟨some fileA, none, none, true, none⟩, [fileA]⟩)
  have h4 := Reachable.step h3
    (Step.deliver ⟨⟨none, none, none, false, none⟩, [fileA]⟩ fileA
      (.success resB) (by simp))
  have he4 : (⟨applyResponse ⟨none, none, none, false, none⟩ (.success resB),
      ([fileA] : List JsFile).erase fileA⟩ : ClientState)
      = ⟨⟨none, some resB, some gcA, false, none⟩, []⟩ := by decide
  rw [he4] at h4
  exact h4

/-- C1 (amended): over the step relation in which a stale response is never
delivered - a response is applied only while the image it was requested for
is still the uploaded image, so never after an intervening reset - every
reachable client state satisfies the presence invariant: a non-null
`predictionResult` or `gradcamImages` implies a non-null `uploadedImage`. -/
theorem c1_invariant_guarded :
    ∀ cs : ClientState, ReachableGuarded cs →
      (cs.session.predictionResult ≠ none ∨ cs.session.gradcamImages ≠ none) →
      cs.session.uploadedImage ≠ none := by
  intro cs h
  induction h with
  | init =>
    intro hcontra
    rcases hcontra with hh | hh <;> simp [emptySession] at hh
  | step hr hs ih =>
    cases hs with
    | upload file hv =>
      intro _
      simp [onDrop, hv]
    | analyzeRefused h => exact ih
    | analyzeStart f h =>
      intro _
      simp [h]
    | reset =>
      intro hcontra
      rcases hcontra with hh | hh <;> simp [resetAnalysis] at hh
    | deliver f o hmem himg =>
      intro _
      simp only [applyResponse_uploadedImage, himg]
      simp

/-- Witness for C1 (amended): the guarded trace upload, analysis start,
in-time delivery reaches a state with a populated result, and the invariant
yields a present uploaded image there. -/
theorem c1_witness :
    (⟨⟨some fileA, some resB, some gcA, false, none⟩, []⟩ : ClientState).session.uploadedImage
      ≠ none := by
  have h1 : ReachableGuarded ⟨⟨some fileA, none, none, false, none⟩, []⟩ := by
    have hs := ReachableGuarded.step ReachableGuarded.init
      (StepGuarded.upload ⟨emptySession, []⟩ fileA (by decide))
    have he : (onDrop emptySession [fileA]).1
        = (⟨some fileA, none, none, false, none⟩ : SessionState) := by decide
    rw [he] at hs
    exact hs
  have h2 : ReachableGuarded ⟨⟨some fileA, none, none, true, none⟩, [fileA]⟩ :=
    ReachableGuarded.step h1
      (StepGuarded.analyzeStart ⟨⟨some fileA, none, none, false, none⟩, []⟩ fileA rfl)
  have h3 := ReachableGuarded.step h2
    (StepGuarded.deliver ⟨⟨some fileA, none, none, true, none⟩, [fileA]⟩ fileA
      (.success resB) (by simp) rfl)
  have he3 : (⟨applyResponse ⟨some fileA, none, none, true, none⟩ (.success resB),
      ([fileA] : List JsFile).erase fileA⟩ : ClientState)
      = ⟨⟨some fileA, some resB, some gcA, false, none⟩, []⟩ := by decide
  rw [he3] at h3
  exact c1_invariant_guarded _ h3 (Or.inl (by decide))

/-- Every character produced by `digitChar` is a decimal digit. -/
theorem digitChar_isDigit (n : Nat) : (digitChar n).isDigit = true := by
  have h : n % 10 < 10 := Nat.mod_lt n (by norm_num)
  unfold digitChar
  set m := n % 10 with hm
  interval_cases m <;> decide

/-- No character produced by `digitChar` is in `[a-zA-Z_]`. -/
theorem isClassChar_digitChar (n : Nat) : isClassChar (digitChar n) = false := by
  have h : n % 10 < 10 := Nat.mod_lt n (by norm_num)
  unfold digitChar isClassChar
  set m := n % 10 with hm
  interval_cases m <;> decide

/-- No character produced by `digitChar` is the letter `T`. -/
theorem digitChar_beq_T (n : Nat) : (digitChar n == 'T') = false := by
  have h : n % 10 < 10 := Nat.mod_lt n (by norm_num)
  unfold digitChar
  set m := n % 10 with hm
  interval_cases m <;> decide

/-- Digit characters pass through the colon-and-period replacement. -/
theorem rcp_digitChar (n : Nat) : replaceColonPeriodChar (digitChar n) = digitChar n := by
  have h : n % 10 < 10 := Nat.mod_lt n (by norm_num)
  unfold digitChar replaceColonPeriodChar
  set m := n % 10 with hm
  interval_cases m <;> decide

/-- `replaceFirstT` passes over a non-`T` head character. -/
theorem replaceFirstT_cons_ne (c : Char) (cs : List Char) (h : (c == 'T') = false) :
    replaceFirstT (c :: cs) = c :: replaceFirstT cs := by
  simp [replaceFirstT, h]

/-- `replaceFirstT` rewrites the head `T` and stops. -/
theorem replaceFirstT_cons_T (cs : List Char) : replaceFirstT ('T' :: cs) = '_' :: cs := by
  simp [replaceFirstT]

/-- The sliced, character-replaced ISO timestamp of any date has the shape
four digit characters, dash, two digits, dash, two digits, underscore, two
digits, dash, two digits, dash, two digits. -/
theorem timestampShape (d : JsDate) :
    jsSlice ⟨replaceFirstT (replaceColonPeriod (toISOString d)).data⟩ 0 19
      = ⟨pad4 d.year ++ '-' :: pad2 d.month ++ '-' :: pad2 d.day ++ '_' :: pad2 d.hour
          ++ '-' :: pad2 d.minute ++ '-' :: pad2 d.second⟩ := by
  unfold jsSlice toISOString replaceColonPeriod pad4 pad3 pad2
  simp only [List.map_append, List.map_cons, List.map_nil, rcp_digitChar,
    (by decide : replaceColonPeriodChar '-' = '-'),
    (by decide : replaceColonPeriodChar 'T' = 'T'),
    (by decide : replaceColonPeriodChar ':' = '-'),
    (by decide : replaceColonPeriodChar '.' = '-'),
    (by decide : replaceColonPeriodChar 'Z' = 'Z'),
    List.cons_append, List.nil_append]
  simp only [replaceFirstT_cons_ne _ _ (digitChar_beq_T _),
    replaceFirstT_cons_ne _ _ (by decide : (('-' : Char) == 'T') = false),
    replaceFirstT_cons_T]
  rfl

/-- `splitClass` passes over a leading run of class characters. -/
theorem splitClass_append_class (xs ys : List Char) (h : ∀ c ∈ xs, isClassChar c = true) :
    splitClass (xs ++ ys) = (xs ++ (splitClass ys).1, (splitClass ys).2) := by
  induction xs with
  | nil => simp [splitClass]
  | cons c cs ih =>
    have hc : isClassChar c = true := h c (List.mem_cons_self _ _)
    have ih' := ih (fun x hx => h x (List.mem_cons_of_mem _ hx))
    simp [splitClass, hc, ih']

/-- Sufficient conditions for `matchesExportPattern`: the string splits
into a class-character run of length at least two ending in an underscore,
followed by a remainder that starts outside the class and passes
`checkTail`. -/
theorem matchesExportPattern_of_parts (s : String) (xs rest : List Char)
    (hs : s.data = xs ++ rest)
    (hxs : ∀ c ∈ xs, isClassChar c = true)
    (hlen : 2 ≤ xs.length)
    (hlast : xs.getLast? = some '_')
    (hsplit : splitClass rest = ([], rest))
    (hct : checkTail rest = true) :
    matchesExportPattern s = true := by
  unfold matchesExportPattern
  rw [hs, splitClass_append_class xs rest hxs, hsplit]
  simp [hlen, hlast, hct]

/-- C8: for every wall-clock date (components in the ranges a real date
takes, the year within the plain four-digit rendering range of
`toISOString`), the filename generated with prefix "thyroid_analysis" and
extension "pdf" or "json" - as the export handlers of `DownloadButtons.jsx`
call it - matches
`^[a-zA-Z_]+_\d{4}-\d{2}-\d{2}_\d{2}-\d{2}-\d{2}\.(pdf|json)$`. -/
theorem c8_generateTimestampedFilename_pattern (d : JsDate)
    (hy : d.year ≤ 9999) (hmo : d.month ≤ 12) (hd : d.day ≤ 31) (hh : d.hour ≤ 23)
    (hmi : d.minute ≤ 59) (hsec : d.second ≤ 59) (hms : d.millisecond ≤ 999) :
    matchesExportPattern (generateTimestampedFilename "thyroid_analysis" "pdf" d) = true ∧
    matchesExportPattern (generateTimestampedFilename "thyroid_analysis" "json" d) = true := by
  constructor
  · unfold generateTimestampedFilename
    rw [timestampShape d]
    apply matchesExportPattern_of_parts _ ("thyroid_analysis".data ++ "_".data)
      ((pad4 d.year ++ '-' :: pad2 d.month ++ '-' :: pad2 d.day ++ '_' :: pad2 d.hour
        ++ '-' :: pad2 d.minute ++ '-' :: pad2 d.second) ++ (".".data ++ "pdf".data))
    · simp [String.data_append, List.append_assoc]
    · decide
    · decide
    · decide
    · simp [pad4, pad2, List.cons_append, List.append_assoc, splitClass, isClassChar_digitChar]
    · simp [pad4, pad2, List.cons_append, List.append_assoc, checkTail, digitChar_isDigit]
  · unfold generateTimestampedFilename
    rw [timestampShape d]
    apply matchesExportPattern_of_parts _ ("thyroid_analysis".data ++ "_".data)
      ((pad4 d.year ++ '-' :: pad2 d.month ++ '-' :: pad2 d.day ++ '_' :: pad2 d.hour
        ++ '-' :: pad2 d.minute ++ '-' :: pad2 d.second) ++ (".".data ++ "json".data))
    · simp [String.data_append, List.append_assoc]
    · decide
    · decide
    · decide
    · simp [pad4, pad2, List.cons_append, List.append_assoc, splitClass, isClassChar_digitChar]
    · simp [pad4, pad2, List.cons_append, List.append_assoc, checkTail, digitChar_isDigit]

/-- Witness for C8 at the concrete date 2026-10-11 12:34:56.789 UTC. -/
theorem c8_witness :
    matchesExportPattern
        (generateTimestampedFilename "thyroid_analysis" "pdf" ⟨2026, 10, 11, 12, 34, 56, 789⟩)
      = true ∧
    matchesExportPattern
        (generateTimestampedFilename "thyroid_analysis" "json" ⟨2026, 10, 11, 12, 34, 56, 789⟩)
      = true :=
  c8_generateTimestampedFilename_pattern ⟨2026, 10, 11, 12, 34, 56, 789⟩
    (by decide) (by decide) (by decide) (by decide) (by decide) (by decide) (by decide)
